import Mathlib

/-!
Verification of the ECK Terraform provider's reconciliation wait.

Shallow embedding of `internal/provider/cluster_resource.go`,
`internal/provider/cluster_functions.go` and the cluster data source of the
`eschercloudai/terraform-provider-eck` repository, centred on
`waitForResourceToBeReady` (the asynchronous-provisioning reconciliation wait)
and its callers `clusterResource.Create`, `clusterResource.Update`,
`clusterResource.Read` and `clusterDataSource.Read`.

Modelling conventions:

* Go `(value, error)` pairs whose error is checked before the value is used
  are embedded as `Except String _`; where the code reads the value *before*
  checking the error (the `Create` POST path) the pair is kept as
  `Option _ × Option String` so that a nil-pointer dereference is observable.
* The Go channels of the wait loop (`ctx.Done()`, `time.After`,
  `ticker.C`) are modelled by a discrete clock in seconds: the ticker fires
  at times `interval, 2*interval, ...`, the timeout channel at time
  `timeout`, and the cancellation signal at time `cancelAt` (when present).
  Each `select` blocks until the earliest pending event; when several are
  ready at the same instant the model resolves deterministically in the
  order `cancel, timeout, tick` (the deterministic-clock reading of the
  `select` statement).
* `json.Unmarshal(body, &cluster)` unmarshals into the `cluster` variable
  declared *outside* the loop, so the decoder receives the previous value;
  the embedding threads that value through the `decode` parameter.
* The loop itself is coded with a fuel argument consumed only on ticker
  ticks; ticks only fire strictly before `timeout`, so fuel `timeout`
  suffices whenever `0 < interval` (`waitFrom_no_outOfFuel` below) and the
  `outOfFuel` artefact is unreachable in every run considered here.
-/

/-- Model of `generated.KubernetesResourceStatus`: the `status.status` string of a
cluster resource. -/
structure KubernetesResourceStatus where
  status : String
  deriving DecidableEq, Repr

/-- Model of `generated.KubernetesCluster`, restricted to the fields the embedded code
paths read: `Name` and the pointer field `Status` (`none` models a nil
pointer, as in the zero value `var cluster generated.KubernetesCluster`). -/
structure KubernetesCluster where
  name : String
  status : Option KubernetesResourceStatus
  deriving DecidableEq, Repr

/-- The zero value of `generated.KubernetesCluster`: nil `Status` pointer. -/
def emptyCluster : KubernetesCluster := { name := "", status := none }

/-- An HTTP response as the wait loop consumes it: the status code, and the
outcome of `io.ReadAll(resp.Body)` (`.error` models a read error). The body
type `β` is abstract; `decode` below models `json.Unmarshal`. -/
structure HttpResponse (β : Type) where
  statusCode : Nat
  body : Except String β
  deriving Repr

/-- A remote API call, as issued through the generated client. Constructors
cover the operations the embedded code paths can issue; only
`getCluster` and `getKubeconfigFor` are reads. -/
inductive ApiCall where
  | getCluster (cp cn : String)
  | getKubeconfigFor (cp cn : String)
  | postCluster (cp : String)
  | putCluster (cp cn : String)
  | deleteCluster (cp cn : String)
  deriving DecidableEq, Repr

/-- The outcome of one invocation of `waitForResourceToBeReady`, one
constructor per `return` site of the Go function (the Go function returns
`error`; the constructor records which site produced it).
`nilStatusPanic` marks the nil-pointer dereference `cluster.Status.Status`
when the decoded cluster has a nil `Status`; `outOfFuel` is the modelling
artefact for fuel exhaustion, unreachable for positive intervals. -/
inductive WaitResult where
  | ready
  | canceled
  | timedOut
  | transportErr (e : String)
  | badStatus (code : Nat)
  | readErr (e : String)
  | decodeErr (e : String)
  | nilStatusPanic
  | outOfFuel
  deriving DecidableEq, Repr

/-- Whether the cancellation signal wins the `select` for a tick scheduled at
time `tick` under deadline `timeout`: the context must be done no later than
both other pending events. -/
def cancelFires (cancelAt : Option Nat) (timeout tick : Nat) : Bool :=
  match cancelAt with
  | none => false
  | some c => c ≤ timeout && c ≤ tick

/-- Result of handling one ticker tick (lines 307-324 of
`cluster_resource.go`): either the loop returns, or it continues with the
cluster value left by `json.Unmarshal`. -/
inductive PollOutcome where
  | finished (r : WaitResult)
  | keepPolling (c : KubernetesCluster)
  deriving Repr

/-- One ticker tick of the wait loop: fetch, check the transport error, check
`resp.StatusCode != http.StatusOK`, read the body, unmarshal into the running
`cluster` value, and test `cluster.Status.Status == "Provisioned"`. -/
def pollOnce {β : Type} (fetched : Except String (HttpResponse β))
    (decode : β → KubernetesCluster → Except String KubernetesCluster)
    (cluster : KubernetesCluster) : PollOutcome :=
  match fetched with
  | .error e => .finished (.transportErr e)
  | .ok resp =>
    if resp.statusCode ≠ 200 then .finished (.badStatus resp.statusCode)
    else
      match resp.body with
      | .error e => .finished (.readErr e)
      | .ok b =>
        match decode b cluster with
        | .error e => .finished (.decodeErr e)
        | .ok c =>
          match c.status with
          | none => .finished .nilStatusPanic
          | some s =>
            if s.status = "Provisioned" then .finished .ready
            else .keepPolling c

/-- The `for { select { ... } }` loop of `waitForResourceToBeReady`, started
after `n` ticks have already been handled. Returns the outcome together with
the list of API calls issued (one `getCluster cp cn` per poll, in order).
Fuel is consumed only on ticks, so fuel `timeout` is always enough when
`0 < interval`. -/
def waitFrom {β : Type} (cp cn : String) (interval timeout : Nat)
    (cancelAt : Option Nat) (fetch : Nat → Except String (HttpResponse β))
    (decode : β → KubernetesCluster → Except String KubernetesCluster) :
    Nat → Nat → KubernetesCluster → WaitResult × List ApiCall
  | fuel, n, cluster =>
    if cancelFires cancelAt timeout ((n + 1) * interval) then (.canceled, [])
    else if timeout ≤ (n + 1) * interval then (.timedOut, [])
    else
      match fuel with
      | 0 => (.outOfFuel, [])
      | fuel + 1 =>
        match pollOnce (fetch n) decode cluster with
        | .finished r => (r, [.getCluster cp cn])
        | .keepPolling c =>
          let rest := waitFrom cp cn interval timeout cancelAt fetch decode fuel (n + 1) c
          (rest.1, .getCluster cp cn :: rest.2)

/-- Embeds `waitForResourceToBeReady(ctx, client, cp, cn)` with the clock
parameters made explicit. The Go source fixes `interval = 30` seconds and
`timeout = 600` seconds (`time.After(10 * time.Minute)`,
`time.NewTicker(30 * time.Second)`); `waitReady` below applies those
constants. Starts from the zero-valued `cluster` variable. -/
def waitForResourceToBeReady {β : Type} (cp cn : String)
    (interval timeout : Nat) (cancelAt : Option Nat)
    (fetch : Nat → Except String (HttpResponse β))
    (decode : β → KubernetesCluster → Except String KubernetesCluster) :
    WaitResult × List ApiCall :=
  waitFrom cp cn interval timeout cancelAt fetch decode timeout 0 emptyCluster

/-- Constant `30 * time.Second`, in seconds: the fixed ticker interval. -/
def pollIntervalSeconds : Nat := 30

/-- Constant `10 * time.Minute`, in seconds: the fixed overall timeout. -/
def waitTimeoutSeconds : Nat := 600

/-- The wait exactly as the provider invokes it: fixed 30-second interval and
10-minute timeout. -/
def waitReady {β : Type} (cp cn : String) (cancelAt : Option Nat)
    (fetch : Nat → Except String (HttpResponse β))
    (decode : β → KubernetesCluster → Except String KubernetesCluster) :
    WaitResult × List ApiCall :=
  waitForResourceToBeReady cp cn pollIntervalSeconds waitTimeoutSeconds
    cancelAt fetch decode

/-- A response body as `json.Unmarshal` sees it, for the environments the
claims are stated over: either malformed (`.error e` carries the unmarshal
error) or well-formed JSON fully describing a cluster. -/
def Body : Type := Except String KubernetesCluster

/-- Embeds `json.Unmarshal` over `Body`: a well-formed body replaces the running
cluster value, a malformed one fails. (In general the Go unmarshal merges
into the previous value; the bodies of these environments fully specify the
cluster, so the previous value is discarded.) -/
def unmarshalBody : Body → KubernetesCluster → Except String KubernetesCluster :=
  fun b _ => b

/-- A well-formed 200 response whose body decodes to a cluster with
`status.status = s`: the generic "fetch succeeded with a well-formed body"
poll of the claims. -/
def okBody (s : String) : Except String (HttpResponse Body) :=
  .ok { statusCode := 200,
        body := .ok (.ok { name := "", status := some { status := s } }) }

/-- Unfolding equation of `waitFrom` with exhausted fuel. -/
lemma waitFrom_zero {β : Type} (cp cn : String) (interval timeout : Nat)
    (cancelAt : Option Nat) (fetch : Nat → Except String (HttpResponse β))
    (decode : β → KubernetesCluster → Except String KubernetesCluster)
    (n : Nat) (cluster : KubernetesCluster) :
    waitFrom cp cn interval timeout cancelAt fetch decode 0 n cluster =
      if cancelFires cancelAt timeout ((n + 1) * interval) then (.canceled, [])
      else if timeout ≤ (n + 1) * interval then (.timedOut, [])
      else (.outOfFuel, []) := by
  rfl

/-- Unfolding equation of `waitFrom` with positive fuel. -/
lemma waitFrom_succ {β : Type} (cp cn : String) (interval timeout : Nat)
    (cancelAt : Option Nat) (fetch : Nat → Except String (HttpResponse β))
    (decode : β → KubernetesCluster → Except String KubernetesCluster)
    (fuel n : Nat) (cluster : KubernetesCluster) :
    waitFrom cp cn interval timeout cancelAt fetch decode (fuel + 1) n cluster =
      if cancelFires cancelAt timeout ((n + 1) * interval) then (.canceled, [])
      else if timeout ≤ (n + 1) * interval then (.timedOut, [])
      else
        match pollOnce (fetch n) decode cluster with
        | .finished r => (r, [.getCluster cp cn])
        | .keepPolling c =>
          ((waitFrom cp cn interval timeout cancelAt fetch decode fuel (n + 1) c).1,
           .getCluster cp cn ::
             (waitFrom cp cn interval timeout cancelAt fetch decode fuel (n + 1) c).2) := by
  rfl

/-- For a decoder that ignores the running cluster value, so does `pollOnce`. -/
lemma pollOnce_cluster {β : Type}
    {decode : β → KubernetesCluster → Except String KubernetesCluster}
    (hdec : ∀ b c₁ c₂, decode b c₁ = decode b c₂)
    (fetched : Except String (HttpResponse β)) (c₁ c₂ : KubernetesCluster) :
    pollOnce fetched decode c₁ = pollOnce fetched decode c₂ := by
  cases fetched with
  | error e => rfl
  | ok resp =>
    obtain ⟨sc, body⟩ := resp
    cases body with
    | error e => rfl
    | ok b =>
      simp only [pollOnce]
      rw [hdec b c₁ c₂]

/-- For a decoder that ignores the running cluster value, the whole wait is
independent of the cluster accumulator. -/
lemma waitFrom_cluster {β : Type} {cp cn : String} {interval timeout : Nat}
    {cancelAt : Option Nat} {fetch : Nat → Except String (HttpResponse β)}
    {decode : β → KubernetesCluster → Except String KubernetesCluster}
    (hdec : ∀ b c₁ c₂, decode b c₁ = decode b c₂) :
    ∀ (fuel n : Nat) (c₁ c₂ : KubernetesCluster),
    waitFrom cp cn interval timeout cancelAt fetch decode fuel n c₁ =
      waitFrom cp cn interval timeout cancelAt fetch decode fuel n c₂ := by
  intro fuel
  induction fuel with
  | zero => intro n c₁ c₂; rfl
  | succ fuel ih =>
    intro n c₁ c₂
    rw [waitFrom_succ, waitFrom_succ, pollOnce_cluster hdec (fetch n) c₁ c₂]

/-- A poll that neither finishes the wait nor changes its course: the fetch
hands back a cluster still in progress. -/
def keepsPolling {β : Type} (fetched : Except String (HttpResponse β))
    (decode : β → KubernetesCluster → Except String KubernetesCluster) : Prop :=
  ∃ c', pollOnce fetched decode emptyCluster = .keepPolling c'

/-- A well-formed 200 body with status `s` finishes the wait exactly when `s`
is the terminal `"Provisioned"` value. -/
lemma pollOnce_okBody (s : String) (c : KubernetesCluster) :
    pollOnce (okBody s) unmarshalBody c =
      if s = "Provisioned" then .finished .ready
      else .keepPolling { name := "", status := some { status := s } } := by
  rfl

/-- A non-`"Provisioned"` well-formed poll keeps polling. -/
lemma keepsPolling_okBody {s : String} (hs : s ≠ "Provisioned") :
    keepsPolling (okBody s) unmarshalBody := by
  exact ⟨_, by rw [pollOnce_okBody, if_neg hs]⟩

/-- Skipping `k` non-terminal polls: the wait from tick `n` with `k` extra
units of fuel performs `k` status reads and then behaves as the wait from
tick `n + k`. -/
lemma waitFrom_skip {β : Type} {cp cn : String} {interval timeout : Nat}
    {cancelAt : Option Nat} {fetch : Nat → Except String (HttpResponse β)}
    {decode : β → KubernetesCluster → Except String KubernetesCluster}
    (hdec : ∀ b c₁ c₂, decode b c₁ = decode b c₂) :
    ∀ (k n fuel : Nat) (c : KubernetesCluster),
    (∀ i, i < k → keepsPolling (fetch (n + i)) decode) →
    (∀ i, i < k → cancelFires cancelAt timeout ((n + i + 1) * interval) = false) →
    (∀ i, i < k → (n + i + 1) * interval < timeout) →
    waitFrom cp cn interval timeout cancelAt fetch decode (fuel + k) n c =
      ((waitFrom cp cn interval timeout cancelAt fetch decode fuel (n + k) c).1,
       List.replicate k (ApiCall.getCluster cp cn) ++
         (waitFrom cp cn interval timeout cancelAt fetch decode fuel (n + k) c).2) := by
  intro k
  induction k with
  | zero => intro n fuel c _ _ _; simp
  | succ k ih =>
    intro n fuel c h1 h2 h3
    obtain ⟨c', hc'⟩ := h1 0 (Nat.succ_pos k)
    simp only [Nat.add_zero] at hc'
    have hc : cancelFires cancelAt timeout ((n + 1) * interval) = false := by
      have := h2 0 (Nat.succ_pos k); simpa using this
    have ht : ¬ timeout ≤ (n + 1) * interval := by
      have := h3 0 (Nat.succ_pos k); simp only [Nat.add_zero] at this; omega
    have hstep : fuel + (k + 1) = (fuel + k) + 1 := by omega
    rw [hstep, waitFrom_succ, hc, if_neg ht,
      pollOnce_cluster hdec (fetch n) c emptyCluster, hc']
    simp only
    have hrec := ih (n + 1) fuel c'
      (fun i hi => by
        have := h1 (i + 1) (by omega)
        simpa [Nat.add_assoc, Nat.add_comm 1 i] using this)
      (fun i hi => by
        have := h2 (i + 1) (by omega)
        simpa [Nat.add_assoc, Nat.add_comm 1 i] using this)
      (fun i hi => by
        have := h3 (i + 1) (by omega)
        simpa [Nat.add_assoc, Nat.add_comm 1 i] using this)
    rw [hrec]
    have hcl := @waitFrom_cluster _ cp cn interval timeout cancelAt fetch
      _ hdec fuel (n + 1 + k) c' c
    have hn : n + 1 + k = n + (k + 1) := by omega
    rw [hcl, hn, List.replicate_succ]
    simp

/-- The decoder `unmarshalBody` ignores the running cluster value. -/
lemma unmarshalBody_cluster (b : Body) (c₁ c₂ : KubernetesCluster) :
    unmarshalBody b c₁ = unmarshalBody b c₂ := rfl

/-- A poll whose fetch is a transport error finishes with that error. -/
lemma pollOnce_transportErr {β : Type} (e : String)
    (decode : β → KubernetesCluster → Except String KubernetesCluster)
    (c : KubernetesCluster) :
    pollOnce (.error e) decode c = .finished (.transportErr e) := rfl

/-- A poll whose response has a non-200 status finishes with `badStatus`. -/
lemma pollOnce_badStatus {β : Type} {code : Nat} (hcode : code ≠ 200)
    (b : Except String β)
    (decode : β → KubernetesCluster → Except String KubernetesCluster)
    (c : KubernetesCluster) :
    pollOnce (.ok { statusCode := code, body := b }) decode c =
      .finished (.badStatus code) := by
  simp [pollOnce, hcode]

/-- A 200 poll with a malformed body finishes with the decode error. -/
lemma pollOnce_decodeErr (e : String) (c : KubernetesCluster) :
    pollOnce (.ok { statusCode := 200, body := .ok (.error e) })
      unmarshalBody c = .finished (.decodeErr e) := rfl

/-- If the cancellation signal wins the `select`, the wait ends in `canceled`
without fetching, whatever the fuel. -/
lemma waitFrom_canceled {β : Type} {cp cn : String} {interval timeout : Nat}
    {cancelAt : Option Nat} {fetch : Nat → Except String (HttpResponse β)}
    {decode : β → KubernetesCluster → Except String KubernetesCluster}
    {n : Nat} (h : cancelFires cancelAt timeout ((n + 1) * interval) = true)
    (fuel : Nat) (cluster : KubernetesCluster) :
    waitFrom cp cn interval timeout cancelAt fetch decode fuel n cluster =
      (.canceled, []) := by
  cases fuel with
  | zero => rw [waitFrom_zero, if_pos h]
  | succ fuel => rw [waitFrom_succ, if_pos h]

/-- Main run lemma: after `k` non-terminal polls, a poll whose handling
finishes with result `r` ends the whole wait with `r` and exactly `k + 1`
status reads issued — whatever timeout budget remains. -/
lemma wait_finishes_at_poll {β : Type} (cp cn : String)
    (interval timeout k : Nat)
    (fetch : Nat → Except String (HttpResponse β))
    {decode : β → KubernetesCluster → Except String KubernetesCluster}
    (hdec : ∀ b c₁ c₂, decode b c₁ = decode b c₂) (r : WaitResult)
    (hI : 0 < interval) (hT : (k + 1) * interval < timeout)
    (hpre : ∀ i, i < k → keepsPolling (fetch i) decode)
    (hk : pollOnce (fetch k) decode emptyCluster = .finished r) :
    waitForResourceToBeReady cp cn interval timeout none fetch decode =
      (r, List.replicate (k + 1) (ApiCall.getCluster cp cn)) := by
  have hkt : k + 1 < timeout := by
    have : k + 1 ≤ (k + 1) * interval := Nat.le_mul_of_pos_right _ hI
    omega
  have h1 : ∀ i, i < k → keepsPolling (fetch (0 + i)) decode := by
    intro i hi; rw [Nat.zero_add]; exact hpre i hi
  have h2 : ∀ i, i < k →
      cancelFires none timeout ((0 + i + 1) * interval) = false := fun _ _ => rfl
  have h3 : ∀ i, i < k → (0 + i + 1) * interval < timeout := by
    intro i hi
    have : (i + 1) * interval ≤ (k + 1) * interval :=
      Nat.mul_le_mul_right _ (by omega)
    simp only [Nat.zero_add]
    omega
  have harg : waitForResourceToBeReady cp cn interval timeout none fetch decode =
      waitFrom cp cn interval timeout none fetch decode
        ((timeout - (k + 1) + 1) + k) 0 emptyCluster := by
    rw [show timeout - (k + 1) + 1 + k = timeout from by omega]
    rfl
  rw [harg, waitFrom_skip hdec k 0 (timeout - (k + 1) + 1) emptyCluster h1 h2 h3,
    waitFrom_succ]
  have hcf : cancelFires none timeout ((0 + k + 1) * interval) = false := rfl
  have ht2 : ¬ timeout ≤ (0 + k + 1) * interval := by
    simp only [Nat.zero_add]; omega
  have hfk : fetch (0 + k) = fetch k := by rw [Nat.zero_add]
  rw [hcf, if_neg ht2, hfk, hk]
  simp [List.replicate_succ']

/-- C1: for every sequence of polled statuses, the wait returns `ready`
exactly at the first poll whose fetched status equals `"Provisioned"` and
issues no further polls after it: with `k` the first such index, the wait
ends `ready` with exactly `k + 1` status reads (so a first-poll
`"Provisioned"` means a single poll, and three non-terminal statuses
followed by `"Provisioned"` with interval `T` and timeout `> 4T` mean
exactly 4 polls). -/
theorem wait_ready_at_first_provisioned (cp cn : String)
    (interval timeout k : Nat) (statuses : Nat → String)
    (fetch : Nat → Except String (HttpResponse Body))
    (hI : 0 < interval) (hT : (k + 1) * interval < timeout)
    (hpre : ∀ i, i < k → fetch i = okBody (statuses i) ∧ statuses i ≠ "Provisioned")
    (hk : fetch k = okBody "Provisioned") :
    waitForResourceToBeReady cp cn interval timeout none fetch unmarshalBody =
      (.ready, List.replicate (k + 1) (ApiCall.getCluster cp cn)) := by
  refine wait_finishes_at_poll cp cn interval timeout k fetch
    unmarshalBody_cluster .ready hI hT ?_ ?_
  · intro i hi
    obtain ⟨hf, hs⟩ := hpre i hi
    rw [hf]
    exact keepsPolling_okBody hs
  · rw [hk, pollOnce_okBody, if_pos rfl]

/-- Witness for C1: the scripted run of the claim — three `"Provisioning"`
polls then `"Provisioned"`, interval `T = 1`, timeout `5 > 4 * T`: `ready`
after exactly 4 polls. -/
theorem wait_ready_at_first_provisioned_witness :
    waitForResourceToBeReady "default" "terraform" 1 5 none
        (fun i => okBody (if i = 3 then "Provisioned" else "Provisioning"))
        unmarshalBody =
      (.ready, List.replicate 4 (ApiCall.getCluster "default" "terraform")) :=
  wait_ready_at_first_provisioned "default" "terraform" 1 5 3
    (fun i => if i = 3 then "Provisioned" else "Provisioning")
    (fun i => okBody (if i = 3 then "Provisioned" else "Provisioning"))
    (by decide) (by decide)
    (fun i hi => ⟨rfl, by simp [show i ≠ 3 by omega]⟩)
    (by simp)

/-- C2: with the fixed 30-second interval and 10-minute timeout, every run
in which all fetches succeed with HTTP 200 and a well-formed body and no
fetched status equals `"Provisioned"` (e.g. a permanent `"Failed"`) ends in
the timeout failure when the deadline fires, and in no other outcome. -/
theorem wait_times_out_without_provisioned (cp cn : String)
    (statuses : Nat → String) (fetch : Nat → Except String (HttpResponse Body))
    (hfetch : ∀ i, fetch i = okBody (statuses i))
    (hs : ∀ i, statuses i ≠ "Provisioned") :
    (waitReady cp cn none fetch unmarshalBody).1 = .timedOut := by
  have h1 : ∀ i, i < 19 → keepsPolling (fetch (0 + i)) unmarshalBody := by
    intro i _
    rw [Nat.zero_add, hfetch i]
    exact keepsPolling_okBody (hs i)
  have h2 : ∀ i, i < 19 →
      cancelFires none 600 ((0 + i + 1) * 30) = false := fun _ _ => rfl
  have h3 : ∀ i, i < 19 → (0 + i + 1) * 30 < 600 := by
    intro i hi; simp only [Nat.zero_add]; omega
  have harg : waitReady cp cn none fetch unmarshalBody =
      waitFrom cp cn 30 600 none fetch unmarshalBody (581 + 19) 0 emptyCluster := rfl
  rw [harg, waitFrom_skip unmarshalBody_cluster 19 0 581 emptyCluster h1 h2 h3]
  rw [show (581 : Nat) = 580 + 1 from rfl, waitFrom_succ]
  norm_num [cancelFires]

/-- Witness for C2: a cluster stuck reporting the remote failure status
`"Failed"` on every poll times out. -/
theorem wait_times_out_without_provisioned_witness :
    (waitReady "default" "terraform" none (fun _ => okBody "Failed")
        unmarshalBody).1 = .timedOut :=
  wait_times_out_without_provisioned "default" "terraform" (fun _ => "Failed")
    (fun _ => okBody "Failed") (fun _ => rfl)
    (fun _ => by show ("Failed" : String) ≠ "Provisioned"; decide)

/-- C3: if the status fetch of poll `k` succeeds but returns a non-success
HTTP status `code`, the wait fails immediately with `badStatus code` —
whatever timeout budget remains — and issues no poll beyond the `k + 1`
already made. -/
theorem wait_fails_on_bad_http_status (cp cn : String)
    (interval timeout k code : Nat) (statuses : Nat → String)
    (b : Except String Body) (fetch : Nat → Except String (HttpResponse Body))
    (hI : 0 < interval) (hT : (k + 1) * interval < timeout)
    (hpre : ∀ i, i < k → fetch i = okBody (statuses i) ∧ statuses i ≠ "Provisioned")
    (hk : fetch k = .ok { statusCode := code, body := b })
    (hcode : code ≠ 200) :
    waitForResourceToBeReady cp cn interval timeout none fetch unmarshalBody =
      (.badStatus code, List.replicate (k + 1) (ApiCall.getCluster cp cn)) := by
  refine wait_finishes_at_poll cp cn interval timeout k fetch
    unmarshalBody_cluster (.badStatus code) hI hT ?_ ?_
  · intro i hi
    obtain ⟨hf, hs⟩ := hpre i hi
    rw [hf]
    exact keepsPolling_okBody hs
  · rw [hk, pollOnce_badStatus hcode]

/-- Witness for C3: a 503 on the third poll (timeout budget 100 still far
from exhausted) fails at once with `badStatus 503` after exactly 3 polls. -/
theorem wait_fails_on_bad_http_status_witness :
    waitForResourceToBeReady "default" "terraform" 1 100 none
        (fun i => if i = 2 then .ok { statusCode := 503, body := .error "ignored" }
                  else okBody "Provisioning") unmarshalBody =
      (.badStatus 503, List.replicate 3 (ApiCall.getCluster "default" "terraform")) :=
  wait_fails_on_bad_http_status "default" "terraform" 1 100 2 503
    (fun _ => "Provisioning")
    (.error "ignored")
    (fun i => if i = 2 then .ok { statusCode := 503, body := .error "ignored" }
              else okBody "Provisioning")
    (by decide) (by decide)
    (fun i hi => ⟨by simp [show i ≠ 2 by omega],
      by show ("Provisioning" : String) ≠ "Provisioned"; decide⟩)
    (by simp) (by decide)

/-- C4: if the status fetch of poll `k` fails with a transport error, the
wait fails immediately surfacing that error, with no retry of the fetch and
no poll beyond the `k + 1` already made. -/
theorem wait_fails_on_transport_error (cp cn : String)
    (interval timeout k : Nat) (statuses : Nat → String) (e : String)
    (fetch : Nat → Except String (HttpResponse Body))
    (hI : 0 < interval) (hT : (k + 1) * interval < timeout)
    (hpre : ∀ i, i < k → fetch i = okBody (statuses i) ∧ statuses i ≠ "Provisioned")
    (hk : fetch k = .error e) :
    waitForResourceToBeReady cp cn interval timeout none fetch unmarshalBody =
      (.transportErr e, List.replicate (k + 1) (ApiCall.getCluster cp cn)) := by
  refine wait_finishes_at_poll cp cn interval timeout k fetch
    unmarshalBody_cluster (.transportErr e) hI hT ?_ ?_
  · intro i hi
    obtain ⟨hf, hs⟩ := hpre i hi
    rw [hf]
    exact keepsPolling_okBody hs
  · rw [hk, pollOnce_transportErr]

/-- Witness for C4: a connection failure on the second poll surfaces at once
after exactly 2 polls. -/
theorem wait_fails_on_transport_error_witness :
    waitForResourceToBeReady "default" "terraform" 1 100 none
        (fun i => if i = 1 then .error "connection refused"
                  else okBody "Provisioning") unmarshalBody =
      (.transportErr "connection refused",
       List.replicate 2 (ApiCall.getCluster "default" "terraform")) :=
  wait_fails_on_transport_error "default" "terraform" 1 100 1
    (fun _ => "Provisioning") "connection refused"
    (fun i => if i = 1 then .error "connection refused" else okBody "Provisioning")
    (by decide) (by decide)
    (fun i hi => ⟨by simp [show i ≠ 1 by omega],
      by show ("Provisioning" : String) ≠ "Provisioned"; decide⟩)
    (by simp)

/-- C6: if the 200 response body of poll `k` cannot be decoded into the
expected cluster shape, the wait fails immediately with that decode error —
it never continues polling past a malformed body. -/
theorem wait_fails_on_malformed_body (cp cn : String)
    (interval timeout k : Nat) (statuses : Nat → String) (e : String)
    (fetch : Nat → Except String (HttpResponse Body))
    (hI : 0 < interval) (hT : (k + 1) * interval < timeout)
    (hpre : ∀ i, i < k → fetch i = okBody (statuses i) ∧ statuses i ≠ "Provisioned")
    (hk : fetch k = .ok { statusCode := 200, body := .ok (.error e) }) :
    waitForResourceToBeReady cp cn interval timeout none fetch unmarshalBody =
      (.decodeErr e, List.replicate (k + 1) (ApiCall.getCluster cp cn)) := by
  refine wait_finishes_at_poll cp cn interval timeout k fetch
    unmarshalBody_cluster (.decodeErr e) hI hT ?_ ?_
  · intro i hi
    obtain ⟨hf, hs⟩ := hpre i hi
    rw [hf]
    exact keepsPolling_okBody hs
  · rw [hk, pollOnce_decodeErr]

/-- Witness for C6: a malformed body on the very first poll yields the
decode error after a single poll. -/
theorem wait_fails_on_malformed_body_witness :
    waitForResourceToBeReady "default" "terraform" 1 100 none
        (fun _ => .ok { statusCode := 200,
                        body := .ok (.error "invalid character x") })
        unmarshalBody =
      (.decodeErr "invalid character x",
       List.replicate 1 (ApiCall.getCluster "default" "terraform")) :=
  wait_fails_on_malformed_body "default" "terraform" 1 100 0
    (fun _ => "Provisioning") "invalid character x"
    (fun _ => .ok { statusCode := 200, body := .ok (.error "invalid character x") })
    (by decide) (by decide)
    (fun i hi => absurd hi (by omega))
    rfl

/-- C5: if the caller's cancellation signal fires at time `c`, before the
deadline and while every poll so far kept polling (no success, error or
timeout reached — `m` is the number of ticks strictly before `c`), the wait
returns `canceled` and issues no further polls: exactly the `m` status reads
made before cancellation. -/
theorem wait_canceled_on_cancellation (cp cn : String)
    (interval timeout c m : Nat)
    (fetch : Nat → Except String (HttpResponse Body))
    (hI : 0 < interval) (hc : c ≤ timeout)
    (hm1 : c ≤ (m + 1) * interval)
    (hm2 : ∀ i, i < m → (i + 1) * interval < c)
    (hpre : ∀ i, i < m → keepsPolling (fetch i) unmarshalBody) :
    waitForResourceToBeReady cp cn interval timeout (some c) fetch unmarshalBody =
      (.canceled, List.replicate m (ApiCall.getCluster cp cn)) := by
  have hmt : m ≤ timeout := by
    rcases Nat.eq_zero_or_pos m with hm | hm
    · omega
    · have h := hm2 (m - 1) (by omega)
      have : m * interval = (m - 1 + 1) * interval := by
        congr 1
        omega
      have hmi : m ≤ m * interval := Nat.le_mul_of_pos_right _ hI
      omega
  have h1 : ∀ i, i < m → keepsPolling (fetch (0 + i)) unmarshalBody := by
    intro i hi; rw [Nat.zero_add]; exact hpre i hi
  have h2 : ∀ i, i < m →
      cancelFires (some c) timeout ((0 + i + 1) * interval) = false := by
    intro i hi
    have := hm2 i hi
    simp only [cancelFires, Nat.zero_add, Bool.and_eq_false_iff,
      decide_eq_false_iff_not]
    omega
  have h3 : ∀ i, i < m → (0 + i + 1) * interval < timeout := by
    intro i hi
    have := hm2 i hi
    simp only [Nat.zero_add]
    omega
  have harg : waitForResourceToBeReady cp cn interval timeout (some c) fetch
        unmarshalBody =
      waitFrom cp cn interval timeout (some c) fetch unmarshalBody
        ((timeout - m) + m) 0 emptyCluster := by
    rw [show timeout - m + m = timeout from by omega]
    rfl
  rw [harg, waitFrom_skip unmarshalBody_cluster m 0 (timeout - m) emptyCluster h1 h2 h3]
  have hfire : cancelFires (some c) timeout ((0 + m + 1) * interval) = true := by
    simp only [cancelFires, Nat.zero_add, Bool.and_eq_true, decide_eq_true_eq]
    exact ⟨hc, hm1⟩
  rw [waitFrom_canceled hfire]
  simp

/-- Witness for C5: interval 1, deadline 5, cancellation at time 3 after two
still-provisioning polls: `canceled` with exactly 2 polls issued. -/
theorem wait_canceled_on_cancellation_witness :
    waitForResourceToBeReady "default" "terraform" 1 5 (some 3)
        (fun _ => okBody "Provisioning") unmarshalBody =
      (.canceled, List.replicate 2 (ApiCall.getCluster "default" "terraform")) :=
  wait_canceled_on_cancellation "default" "terraform" 1 5 3 2
    (fun _ => okBody "Provisioning")
    (by decide) (by decide) (by decide)
    (fun i hi => by omega)
    (fun i hi => keepsPolling_okBody
      (by show ("Provisioning" : String) ≠ "Provisioned"; decide))

/-- With exhausted fuel no call is issued. -/
lemma waitFrom_zero_calls {β : Type} (cp cn : String) (interval timeout : Nat)
    (cancelAt : Option Nat) (fetch : Nat → Except String (HttpResponse β))
    (decode : β → KubernetesCluster → Except String KubernetesCluster)
    (n : Nat) (cluster : KubernetesCluster) :
    (waitFrom cp cn interval timeout cancelAt fetch decode 0 n cluster).2 = [] := by
  rw [waitFrom_zero]
  split
  · rfl
  · split <;> rfl

/-- Every call in the wait's trace is the status read of the identified
resource. -/
lemma waitFrom_calls_are_reads {β : Type} (cp cn : String)
    (interval timeout : Nat) (cancelAt : Option Nat)
    (fetch : Nat → Except String (HttpResponse β))
    (decode : β → KubernetesCluster → Except String KubernetesCluster) :
    ∀ (fuel n : Nat) (cluster : KubernetesCluster), ∀ call ∈
      (waitFrom cp cn interval timeout cancelAt fetch decode fuel n cluster).2,
      call = ApiCall.getCluster cp cn := by
  intro fuel
  induction fuel with
  | zero =>
    intro n cluster call h
    rw [waitFrom_zero_calls] at h
    simp at h
  | succ fuel ih =>
    intro n cluster call h
    rw [waitFrom_succ] at h
    by_cases h1 : cancelFires cancelAt timeout ((n + 1) * interval) = true
    · rw [if_pos h1] at h; simp at h
    · rw [if_neg h1] at h
      by_cases h2 : timeout ≤ (n + 1) * interval
      · rw [if_pos h2] at h; simp at h
      · rw [if_neg h2] at h
        cases hp : pollOnce (fetch n) decode cluster with
        | finished r =>
          rw [hp] at h
          simpa using h
        | keepPolling c =>
          rw [hp] at h
          simp only [List.mem_cons] at h
          rcases h with h | h
          · exact h
          · exact ih (n + 1) c call h

/-- C8: the waiter never mutates the remote resource — every remote call an
invocation of the wait issues is the read-only status fetch
`getCluster cp cn` of the identified resource, for every clock, fetch
environment and decoder; its only effects are those reads. -/
theorem wait_issues_only_status_reads {β : Type} (cp cn : String)
    (interval timeout : Nat) (cancelAt : Option Nat)
    (fetch : Nat → Except String (HttpResponse β))
    (decode : β → KubernetesCluster → Except String KubernetesCluster) :
    ∀ call ∈
      (waitForResourceToBeReady cp cn interval timeout cancelAt fetch decode).2,
      call = ApiCall.getCluster cp cn :=
  fun call h =>
    waitFrom_calls_are_reads cp cn interval timeout cancelAt fetch decode
      timeout 0 emptyCluster call h

/-- Witness for C8: a concrete run issues a call and that call is the status
read of the identified resource. -/
theorem wait_issues_only_status_reads_witness :
    ApiCall.getCluster "default" "terraform" =
      ApiCall.getCluster "default" "terraform" :=
  wait_issues_only_status_reads "default" "terraform" 1 5 none
    (fun _ => okBody "Provisioned") unmarshalBody
    (ApiCall.getCluster "default" "terraform") (by decide)

/-- Handling a tick never produces the fuel artefact. -/
lemma pollOnce_ne_outOfFuel {β : Type} (fetched : Except String (HttpResponse β))
    (decode : β → KubernetesCluster → Except String KubernetesCluster)
    (c : KubernetesCluster) :
    pollOnce fetched decode c ≠ .finished .outOfFuel := by
  unfold pollOnce
  repeat' split
  all_goals simp

/-- Fuel `timeout` is always sufficient: with a positive interval the wait
never reports the `outOfFuel` artefact. -/
lemma waitFrom_no_outOfFuel {β : Type} (cp cn : String)
    (interval timeout : Nat) (cancelAt : Option Nat)
    (fetch : Nat → Except String (HttpResponse β))
    (decode : β → KubernetesCluster → Except String KubernetesCluster)
    (hI : 0 < interval) :
    ∀ (fuel n : Nat) (cluster : KubernetesCluster),
      timeout ≤ fuel + n * interval →
      (waitFrom cp cn interval timeout cancelAt fetch decode fuel n cluster).1 ≠
        .outOfFuel := by
  intro fuel
  induction fuel with
  | zero =>
    intro n cluster hle
    rw [waitFrom_zero]
    by_cases h1 : cancelFires cancelAt timeout ((n + 1) * interval) = true
    · rw [if_pos h1]; simp
    · rw [if_neg h1]
      have hmul : n * interval ≤ (n + 1) * interval :=
        Nat.mul_le_mul_right _ (by omega)
      rw [if_pos (by omega : timeout ≤ (n + 1) * interval)]
      simp
  | succ fuel ih =>
    intro n cluster hle
    rw [waitFrom_succ]
    by_cases h1 : cancelFires cancelAt timeout ((n + 1) * interval) = true
    · rw [if_pos h1]; simp
    · rw [if_neg h1]
      by_cases h2 : timeout ≤ (n + 1) * interval
      · rw [if_pos h2]; simp
      · rw [if_neg h2]
        cases hp : pollOnce (fetch n) decode cluster with
        | finished r =>
          have := pollOnce_ne_outOfFuel (fetch n) decode cluster
          rw [hp] at this
          simp only
          intro hr
          exact this (by rw [hr])
        | keepPolling c' =>
          simp only
          have harith : n * interval + interval = (n + 1) * interval := by ring
          exact ih (n + 1) c' (by omega)

/-- Embeds `getKubeconfig(client, ctx, eckcp, cluster)`
(`cluster_functions.go` lines 12-22). The fetch outcome is a transport
error, or a response whose body read (`io.ReadAll`) errs or yields the
kubeconfig bytes. Both error paths return the empty string; no error is
ever surfaced. -/
def getKubeconfig (fetched : Except String (Except String String)) : String :=
  match fetched with
  | .error _ => ""
  | .ok readBody =>
    match readBody with
    | .error _ => ""
    | .ok kc => kc

/-- The subset of the Terraform plan/state model (`clusterModel`) the
embedded operation paths read: the cluster name, its control plane, the
declared status and the `wait` opt-in flag. -/
structure ClusterPlan where
  name : String
  eckcp : String
  status : String
  wait : Bool
  deriving DecidableEq, Repr

/-- The schema default of the `wait` attribute:
`booldefault.StaticBool(false)` (`cluster_resource.go` line 104). -/
def waitDefault : Bool := false

/-- Embeds `generateKubernetesCluster(ctx, plan)`, restricted to the fields the
embedded paths read; it always allocates the `Status` pointer, carrying the
plan's declared status. -/
def generateKubernetesCluster (plan : ClusterPlan) : KubernetesCluster :=
  { name := plan.name, status := some { status := plan.status } }

/-- The dereference `cluster.Status.Status` where the `Status` pointer is non-nil at every
embedded use site (clusters built by `generateKubernetesCluster`, or decoded
clusters matched against `some` first); the `""` fallback is never taken
there. -/
def statusOf (c : KubernetesCluster) : String :=
  (c.status.map (fun s => s.status)).getD ""

/-- The state `generateClusterModel(ctx, cluster, eckcp, kubeconfig, wait)`
produces, restricted to the modelled fields. -/
structure ClusterStateModel where
  name : String
  eckcp : String
  status : String
  kubeconfig : String
  wait : Bool
  deriving DecidableEq, Repr

/-- Embeds `generateClusterModel` (`cluster_functions.go` lines 86-122, with the
`wait` argument of the resource call sites). -/
def generateClusterModel (cluster : KubernetesCluster) (eckcp kubeconfig : String)
    (wait : Bool) : ClusterStateModel :=
  { name := cluster.name, eckcp := eckcp, status := statusOf cluster,
    kubeconfig := kubeconfig, wait := wait }

/-- The POST response as `Create` reads it (`ur.StatusCode`, `ur.Status`). -/
structure PostResponse where
  statusCode : Nat
  status : String
  deriving DecidableEq, Repr

/-- Environment of one `Create`/`Update` invocation: the Go pair `(ur, err)`
of the initial POST/PUT kept as two options (the code reads `ur` before
checking `err`), the cancellation clock and status-fetch environment handed
to the wait, and the kubeconfig fetch outcome. -/
structure OperationEnv (β : Type) where
  ur : Option PostResponse
  err : Option String
  cancelAt : Option Nat
  fetch : Nat → Except String (HttpResponse β)
  decode : β → KubernetesCluster → Except String KubernetesCluster
  kubeconfigFetch : Except String (Except String String)

/-- Observable outcome of one resource operation: whether it panicked on a
nil dereference, the error diagnostics recorded (their summary strings, in
order), whether and how the wait polled, and the state written by
`resp.State.Set` (`none` when the operation returned before reaching it). -/
structure OperationOutcome where
  panicked : Bool
  diags : List String
  waitInvoked : Bool
  waitCalls : List ApiCall
  written : Option ClusterStateModel
  deriving Repr

/-- Embeds `clusterResource.Create` (`cluster_resource.go` lines 330-384), after the
plan has been read successfully. Mirrors the source order: the POST; the
read of `ur.StatusCode` *before* the `err != nil` check (a nil `ur`
therefore panics); the non-202 diagnostic that does *not* return; the early
return on `err`; the optional wait, whose failure adds a diagnostic but
does not return; the kubeconfig fetch after the wait and again when the
planned status is already `"Provisioned"`; and the final state write. -/
def createCluster {β : Type} (plan : ClusterPlan) (env : OperationEnv β) :
    OperationOutcome :=
  let cluster := generateKubernetesCluster plan
  match env.ur with
  | none =>
    { panicked := true, diags := [], waitInvoked := false, waitCalls := [],
      written := none }
  | some ur =>
    let diags0 : List String :=
      if ur.statusCode ≠ 202 then ["Error creating cluster"] else []
    match env.err with
    | some _ =>
      { panicked := false, diags := diags0 ++ ["Error creating cluster"],
        waitInvoked := false, waitCalls := [], written := none }
    | none =>
      let w : Option (WaitResult × List ApiCall) :=
        if plan.wait then
          some (waitForResourceToBeReady plan.eckcp plan.name
            pollIntervalSeconds waitTimeoutSeconds env.cancelAt env.fetch
            env.decode)
        else none
      let diags1 := diags0 ++
        (match w with
         | some wr =>
           if wr.1 ≠ .ready then ["Error Waiting for Resource to be Ready"]
           else []
         | none => [])
      let kubeconfig0 : String :=
        match w with
        | some _ => getKubeconfig env.kubeconfigFetch
        | none => ""
      let kubeconfig :=
        if statusOf cluster = "Provisioned" then getKubeconfig env.kubeconfigFetch
        else kubeconfig0
      { panicked := false, diags := diags1, waitInvoked := plan.wait,
        waitCalls := (w.map (fun wr => wr.2)).getD [],
        written := some (generateClusterModel cluster plan.eckcp kubeconfig
          plan.wait) }

/-- Embeds `clusterResource.Update` (`cluster_resource.go` lines 441-491). The PUT
response is discarded (`_, err := ...`), so no nil dereference is possible;
unlike `Create`, a wait failure both records a diagnostic *and* returns
before writing state. -/
def updateCluster {β : Type} (plan : ClusterPlan) (env : OperationEnv β) :
    OperationOutcome :=
  let cluster := generateKubernetesCluster plan
  match env.err with
  | some _ =>
    { panicked := false, diags := ["Error creating cluster"],
      waitInvoked := false, waitCalls := [], written := none }
  | none =>
    if plan.wait then
      let wr := waitForResourceToBeReady plan.eckcp plan.name
        pollIntervalSeconds waitTimeoutSeconds env.cancelAt env.fetch env.decode
      if wr.1 ≠ .ready then
        { panicked := false, diags := ["Error Waiting for Resource to be Ready"],
          waitInvoked := true, waitCalls := wr.2, written := none }
      else
        let kubeconfig0 := getKubeconfig env.kubeconfigFetch
        let kubeconfig :=
          if statusOf cluster = "Provisioned" then
            getKubeconfig env.kubeconfigFetch
          else kubeconfig0
        { panicked := false, diags := [], waitInvoked := true,
          waitCalls := wr.2,
          written := some (generateClusterModel cluster plan.eckcp kubeconfig
            plan.wait) }
    else
      let kubeconfig :=
        if statusOf cluster = "Provisioned" then getKubeconfig env.kubeconfigFetch
        else ""
      { panicked := false, diags := [], waitInvoked := false, waitCalls := [],
        written := some (generateClusterModel cluster plan.eckcp kubeconfig
          plan.wait) }

/-- Environment of `clusterResource.Read`: the GET outcome (a transport
error, or the body handed to `json.NewDecoder(...).Decode`) and the
kubeconfig fetch outcome. -/
structure ReadEnv where
  get : Except String Body
  kubeconfigFetch : Except String (Except String String)

/-- Embeds `clusterResource.Read` (`cluster_resource.go` lines 387-440): an early
return with a diagnostic on a transport error; a diagnostic *without*
return on a decode failure, in which case the zero-valued cluster's nil
`Status` skips the refresh and the prior state is re-written; otherwise the
kubeconfig is fetched exactly when the decoded status is `"Provisioned"`
and the refreshed state is written. -/
def readCluster (state0 : ClusterStateModel) (env : ReadEnv) : OperationOutcome :=
  match env.get with
  | .error _ =>
    { panicked := false, diags := ["Error Reading cluster information"],
      waitInvoked := false, waitCalls := [], written := none }
  | .ok decoded =>
    match decoded with
    | .error _ =>
      { panicked := false, diags := ["Unable to read cluster information"],
        waitInvoked := false, waitCalls := [], written := some state0 }
    | .ok cluster =>
      match cluster.status with
      | none =>
        { panicked := false, diags := [], waitInvoked := false,
          waitCalls := [], written := some state0 }
      | some s =>
        let kubeconfig :=
          if s.status = "Provisioned" then getKubeconfig env.kubeconfigFetch
          else ""
        { panicked := false, diags := [], waitInvoked := false, waitCalls := [],
          written := some (generateClusterModel cluster state0.eckcp kubeconfig
            state0.wait) }

/-- Embeds `clusterDataSource.Read` (`cluster_data_source.go` lines 231-276): bare
returns (no diagnostic) on a non-200 status, a body-read error or an
unmarshal failure; on success `cluster.Status.Status` is dereferenced with
no nil check (a decoded nil `Status` panics), the kubeconfig is fetched
exactly when that status is `"Provisioned"`, and the state is written (the
data source's `generateClusterModel` call carries no `wait` argument; the
written flag is the zero value). -/
def clusterDataSourceRead (state0 : ClusterStateModel)
    (get : Except String (HttpResponse Body))
    (kubeconfigFetch : Except String (Except String String)) :
    OperationOutcome :=
  match get with
  | .error _ =>
    { panicked := false, diags := ["Unable to retrieve cluster information"],
      waitInvoked := false, waitCalls := [], written := none }
  | .ok r =>
    if r.statusCode ≠ 200 then
      { panicked := false, diags := [], waitInvoked := false, waitCalls := [],
        written := none }
    else
      match r.body with
      | .error _ =>
        { panicked := false, diags := [], waitInvoked := false, waitCalls := [],
          written := none }
      | .ok decoded =>
        match decoded with
        | .error _ =>
          { panicked := false, diags := [], waitInvoked := false,
            waitCalls := [], written := none }
        | .ok cluster =>
          match cluster.status with
          | none =>
            { panicked := true, diags := [], waitInvoked := false,
              waitCalls := [], written := none }
          | some s =>
            let kubeconfig :=
              if s.status = "Provisioned" then getKubeconfig kubeconfigFetch
              else ""
            { panicked := false, diags := [], waitInvoked := false,
              waitCalls := [],
              written := some (generateClusterModel cluster state0.eckcp
                kubeconfig false) }

/-- C7: for every create and every update whose POST/PUT the remote system
acknowledged (a response arrived and no transport error), the blocking wait
is invoked exactly when the plan's `wait` flag is true; when the flag is
false — its schema default — no status poll is issued and the operation
proceeds directly to writing state. -/
theorem create_update_wait_iff_flag {β : Type} (plan : ClusterPlan)
    (env : OperationEnv β) (ur : PostResponse)
    (hur : env.ur = some ur) (herr : env.err = none) :
    (createCluster plan env).waitInvoked = plan.wait ∧
    (updateCluster plan env).waitInvoked = plan.wait ∧
    waitDefault = false ∧
    (plan.wait = false →
      (createCluster plan env).waitCalls = [] ∧
      (createCluster plan env).written ≠ none ∧
      (updateCluster plan env).waitCalls = [] ∧
      (updateCluster plan env).written ≠ none) := by
  cases hw : plan.wait <;>
    simp [createCluster, updateCluster, hur, herr, hw, waitDefault]
  split <;> rfl

/-- Witness for C7: a plan with the default `wait = false` and an
acknowledged POST/PUT: the wait is not invoked, no poll is issued, state is
written. -/
theorem create_update_wait_iff_flag_witness :
    (createCluster
        { name := "terraform", eckcp := "default", status := "", wait := false }
        { ur := some { statusCode := 202, status := "202 Accepted" },
          err := none, cancelAt := none,
          fetch := fun _ => okBody "Provisioning", decode := unmarshalBody,
          kubeconfigFetch := .ok (.ok "kc") }).waitInvoked = false ∧
    (updateCluster
        { name := "terraform", eckcp := "default", status := "", wait := false }
        { ur := some { statusCode := 202, status := "202 Accepted" },
          err := none, cancelAt := none,
          fetch := fun _ => okBody "Provisioning", decode := unmarshalBody,
          kubeconfigFetch := .ok (.ok "kc") }).waitInvoked = false ∧
    waitDefault = false ∧
    (false = false →
      (createCluster
          { name := "terraform", eckcp := "default", status := "", wait := false }
          { ur := some { statusCode := 202, status := "202 Accepted" },
            err := none, cancelAt := none,
            fetch := fun _ => okBody "Provisioning", decode := unmarshalBody,
            kubeconfigFetch := .ok (.ok "kc") }).waitCalls = [] ∧
      (createCluster
          { name := "terraform", eckcp := "default", status := "", wait := false }
          { ur := some { statusCode := 202, status := "202 Accepted" },
            err := none, cancelAt := none,
            fetch := fun _ => okBody "Provisioning", decode := unmarshalBody,
            kubeconfigFetch := .ok (.ok "kc") }).written ≠ none ∧
      (updateCluster
          { name := "terraform", eckcp := "default", status := "", wait := false }
          { ur := some { statusCode := 202, status := "202 Accepted" },
            err := none, cancelAt := none,
            fetch := fun _ => okBody "Provisioning", decode := unmarshalBody,
            kubeconfigFetch := .ok (.ok "kc") }).waitCalls = [] ∧
      (updateCluster
          { name := "terraform", eckcp := "default", status := "", wait := false }
          { ur := some { statusCode := 202, status := "202 Accepted" },
            err := none, cancelAt := none,
            fetch := fun _ => okBody "Provisioning", decode := unmarshalBody,
            kubeconfigFetch := .ok (.ok "kc") }).written ≠ none) := by
  have h := create_update_wait_iff_flag (β := Body)
    { name := "terraform", eckcp := "default", status := "", wait := false }
    { ur := some { statusCode := 202, status := "202 Accepted" },
      err := none, cancelAt := none,
      fetch := fun _ => okBody "Provisioning", decode := unmarshalBody,
      kubeconfigFetch := .ok (.ok "kc") }
    { statusCode := 202, status := "202 Accepted" } rfl rfl
  exact h

/-- C9: `Create` reads `ur.StatusCode` before checking the POST's error
value. A transport failure delivering no response object therefore panics
on the nil dereference — with no diagnostic recorded — instead of reporting
the error; and an acknowledged POST whose status is not 202 Accepted
records an error diagnostic yet still proceeds to the optional wait and
writes state. -/
theorem create_reads_status_before_error {β : Type} (plan : ClusterPlan)
    (env envBad : OperationEnv β) (ur : PostResponse) (e : String)
    (h1 : env.ur = none) (h2 : env.err = some e)
    (h3 : envBad.ur = some ur) (h4 : envBad.err = none)
    (h5 : ur.statusCode ≠ 202) :
    ((createCluster plan env).panicked = true ∧
     (createCluster plan env).diags = []) ∧
    ((createCluster plan envBad).panicked = false ∧
     "Error creating cluster" ∈ (createCluster plan envBad).diags ∧
     (createCluster plan envBad).written ≠ none ∧
     (createCluster plan envBad).waitInvoked = plan.wait) := by
  refine ⟨⟨?_, ?_⟩, ?_, ?_, ?_, ?_⟩ <;>
    simp [createCluster, h1, h2, h3, h4, h5]

/-- Witness for C9: a POST failing with a nil response panics with no
diagnostic; a 500 POST response records the diagnostic and still writes
state. -/
theorem create_reads_status_before_error_witness :
    ((createCluster (β := Body)
        { name := "terraform", eckcp := "default", status := "", wait := false }
        { ur := none, err := some "connection refused", cancelAt := none,
          fetch := fun _ => okBody "Provisioning", decode := unmarshalBody,
          kubeconfigFetch := .ok (.ok "kc") }).panicked = true ∧
     (createCluster (β := Body)
        { name := "terraform", eckcp := "default", status := "", wait := false }
        { ur := none, err := some "connection refused", cancelAt := none,
          fetch := fun _ => okBody "Provisioning", decode := unmarshalBody,
          kubeconfigFetch := .ok (.ok "kc") }).diags = []) ∧
    ((createCluster (β := Body)
        { name := "terraform", eckcp := "default", status := "", wait := false }
        { ur := some { statusCode := 500, status := "500 Internal Server Error" },
          err := none, cancelAt := none,
          fetch := fun _ => okBody "Provisioning", decode := unmarshalBody,
          kubeconfigFetch := .ok (.ok "kc") }).panicked = false ∧
     "Error creating cluster" ∈ (createCluster (β := Body)
        { name := "terraform", eckcp := "default", status := "", wait := false }
        { ur := some { statusCode := 500, status := "500 Internal Server Error" },
          err := none, cancelAt := none,
          fetch := fun _ => okBody "Provisioning", decode := unmarshalBody,
          kubeconfigFetch := .ok (.ok "kc") }).diags ∧
     (createCluster (β := Body)
        { name := "terraform", eckcp := "default", status := "", wait := false }
        { ur := some { statusCode := 500, status := "500 Internal Server Error" },
          err := none, cancelAt := none,
          fetch := fun _ => okBody "Provisioning", decode := unmarshalBody,
          kubeconfigFetch := .ok (.ok "kc") }).written ≠ none ∧
     (createCluster (β := Body)
        { name := "terraform", eckcp := "default", status := "", wait := false }
        { ur := some { statusCode := 500, status := "500 Internal Server Error" },
          err := none, cancelAt := none,
          fetch := fun _ => okBody "Provisioning", decode := unmarshalBody,
          kubeconfigFetch := .ok (.ok "kc") }).waitInvoked = false) :=
  create_reads_status_before_error (β := Body)
    { name := "terraform", eckcp := "default", status := "", wait := false }
    { ur := none, err := some "connection refused", cancelAt := none,
      fetch := fun _ => okBody "Provisioning", decode := unmarshalBody,
      kubeconfigFetch := .ok (.ok "kc") }
    { ur := some { statusCode := 500, status := "500 Internal Server Error" },
      err := none, cancelAt := none,
      fetch := fun _ => okBody "Provisioning", decode := unmarshalBody,
      kubeconfigFetch := .ok (.ok "kc") }
    { statusCode := 500, status := "500 Internal Server Error" }
    "connection refused" rfl rfl rfl rfl (by decide)

/-- C10: `getKubeconfig` is total over its error cases and never surfaces a
failure — a transport error on the kubeconfig fetch and an error reading
the response body both return the empty string — and each caller (`Create`,
`Update`, `Read`, the cluster data source) then silently stores that empty
kubeconfig in the state it writes, with no diagnostic. -/
theorem getKubeconfig_swallows_errors (e : String) (plan : ClusterPlan)
    (env : OperationEnv Body) (ur : PostResponse)
    (state0 : ClusterStateModel) (cluster : KubernetesCluster)
    (hur : env.ur = some ur) (hcode : ur.statusCode = 202)
    (herr : env.err = none) (hw : plan.wait = true)
    (hkf : env.kubeconfigFetch = .error e ∨
      env.kubeconfigFetch = .ok (.error e))
    (hready : (waitForResourceToBeReady plan.eckcp plan.name
        pollIntervalSeconds waitTimeoutSeconds env.cancelAt env.fetch
        env.decode).1 = .ready)
    (hcs : cluster.status = some { status := "Provisioned" }) :
    getKubeconfig (.error e) = "" ∧
    getKubeconfig (.ok (.error e)) = "" ∧
    ((createCluster plan env).diags = [] ∧
     ∃ st, (createCluster plan env).written = some st ∧ st.kubeconfig = "") ∧
    ((updateCluster plan env).diags = [] ∧
     ∃ st, (updateCluster plan env).written = some st ∧ st.kubeconfig = "") ∧
    ((readCluster state0
        { get := .ok (.ok cluster),
          kubeconfigFetch := env.kubeconfigFetch }).diags = [] ∧
     ∃ st, (readCluster state0
        { get := .ok (.ok cluster),
          kubeconfigFetch := env.kubeconfigFetch }).written = some st ∧
       st.kubeconfig = "") ∧
    ((clusterDataSourceRead state0
        (.ok { statusCode := 200, body := .ok (.ok cluster) })
        env.kubeconfigFetch).diags = [] ∧
     ∃ st, (clusterDataSourceRead state0
        (.ok { statusCode := 200, body := .ok (.ok cluster) })
        env.kubeconfigFetch).written = some st ∧ st.kubeconfig = "") := by
  have hk : getKubeconfig env.kubeconfigFetch = "" := by
    rcases hkf with h | h <;> rw [h] <;> rfl
  refine ⟨rfl, rfl, ?_, ?_, ?_, ?_⟩
  · refine ⟨by simp [createCluster, hur, herr, hw, hcode, hready], ?_⟩
    have hwr : (createCluster plan env).written =
        some (generateClusterModel (generateKubernetesCluster plan) plan.eckcp
          (getKubeconfig env.kubeconfigFetch) true) := by
      simp [createCluster, hur, herr, hw]
    exact ⟨_, hwr, by simp [generateClusterModel, hk]⟩
  · refine ⟨by simp [updateCluster, herr, hw, hready], ?_⟩
    have hwr : (updateCluster plan env).written =
        some (generateClusterModel (generateKubernetesCluster plan) plan.eckcp
          (getKubeconfig env.kubeconfigFetch) true) := by
      simp [updateCluster, herr, hw, hready]
    exact ⟨_, hwr, by simp [generateClusterModel, hk]⟩
  · refine ⟨by simp [readCluster, hcs], ?_⟩
    have hwr : (readCluster state0
        { get := .ok (.ok cluster),
          kubeconfigFetch := env.kubeconfigFetch }).written =
        some (generateClusterModel cluster state0.eckcp
          (getKubeconfig env.kubeconfigFetch) state0.wait) := by
      simp [readCluster, hcs]
    exact ⟨_, hwr, by simp [generateClusterModel, hk]⟩
  · refine ⟨by simp [clusterDataSourceRead, hcs], ?_⟩
    have hwr : (clusterDataSourceRead state0
        (.ok { statusCode := 200, body := .ok (.ok cluster) })
        env.kubeconfigFetch).written =
        some (generateClusterModel cluster state0.eckcp
          (getKubeconfig env.kubeconfigFetch) false) := by
      simp [clusterDataSourceRead, hcs]
    exact ⟨_, hwr, by simp [generateClusterModel, hk]⟩

/-- Witness for C10: a concrete failing kubeconfig fetch, in both error
modes, yields the empty string (obtained by instantiating the caller
scenario: acknowledged POST, `wait = true`, first poll `"Provisioned"`). -/
theorem getKubeconfig_swallows_errors_witness :
    getKubeconfig (.error "connection reset") = "" ∧
    getKubeconfig (.ok (.error "connection reset")) = "" ∧
    (createCluster (β := Body)
      { name := "terraform", eckcp := "default", status := "", wait := true }
      { ur := some { statusCode := 202, status := "202 Accepted" },
        err := none, cancelAt := none,
        fetch := fun _ => okBody "Provisioned", decode := unmarshalBody,
        kubeconfigFetch := .error "connection reset" }).diags = [] := by
  have h := getKubeconfig_swallows_errors "connection reset"
    { name := "terraform", eckcp := "default", status := "", wait := true }
    { ur := some { statusCode := 202, status := "202 Accepted" },
      err := none, cancelAt := none,
      fetch := fun _ => okBody "Provisioned", decode := unmarshalBody,
      kubeconfigFetch := .error "connection reset" }
    { statusCode := 202, status := "202 Accepted" }
    { name := "terraform", eckcp := "default", status := "Provisioned",
      kubeconfig := "", wait := false }
    { name := "terraform", status := some { status := "Provisioned" } }
    rfl rfl rfl rfl (Or.inl rfl) (by decide) rfl
  exact ⟨h.1, h.2.1, h.2.2.1.1⟩
